/-
Verification of the ChatTTS-Forge webui request pipeline.

Shallow embedding of:
  - modules/webui/webui_utils.py   (segments_length_limit, load_spk_info,
    tts_generate, refine_text)
  - modules/core/handler/encoder/encoders.py (Mp3/Wav/Ogg/Flac/Aac encoders)

Modelling conventions:
  - Python `str` is Lean `String`; slicing and strip are modelled on the
    underlying character list (Python indexes strings by code point).
  - Python numbers reaching the coalescing/clamp logic are modelled as `ℚ`
    (every float64 value that can arrive there is a rational, and all the
    literals involved — 0.1, 1e-9, the clamp bounds — are exactly
    representable, so float64 arithmetic on them is exact).
  - Fallible Python code (raise / try-except) is modelled with `Except`.
  - External collaborators that are not part of the sources
    (TTSSpeaker.from_file, calc_spk_style, encode_to_wav,
    create_speaker_from_seed) are modelled as function parameters or as
    free constructors, so every theorem holds for every behaviour of the
    external code.
-/
import Mathlib

namespace ChatTTSForge

/-! ## Python string primitives -/

/-- Python `str.strip()`: drop whitespace from both ends.  Modelled on the
character list of the string. -/
def pyStrip (s : String) : String :=
  ⟨((s.data.dropWhile Char.isWhitespace).reverse.dropWhile Char.isWhitespace).reverse⟩

/-- Python slice `s[0:n]` for a non-negative bound `n`. -/
def pyTake (s : String) (n : Nat) : String := ⟨s.data.take n⟩

/-- Python `a or b` on strings: the empty string is the only falsy string. -/
def pyOrStr (a b : String) : String := if a = "" then b else a

/-- Python `a or b` on numbers: zero is the only falsy rational. -/
def pyOrQ (a b : ℚ) : ℚ := if a = 0 then b else a

/-! ## Segments and `segments_length_limit` (webui_utils.py lines 89-102) -/

/-- A parsed SSML segment: either an `SSMLBreak` or an `SSMLSegment`
carrying its `"text"` field (the only field the length limiter reads). -/
inductive SSMLSeg where
  | brk : SSMLSeg
  | text : String → SSMLSeg
deriving DecidableEq

/-- Character count a segment contributes to the budget: breaks count 0,
text segments count `len(seg["text"])`. -/
def segTextLen : SSMLSeg → Nat
  | .brk => 0
  | .text t => t.length

/-- Total character length of the Text segments of a list. -/
def totalTextLen (segs : List SSMLSeg) : Nat := (segs.map segTextLen).sum

/-- Loop body of `segments_length_limit`: `total_len` is the running
cumulative Text length, `total_max` the budget.  The source appends every
Break, adds each Text length to `total_len` and breaks out of the loop as
soon as `total_len > total_max`, without appending that segment. -/
def segmentsLengthLimitGo (total_max total_len : Int) : List SSMLSeg → List SSMLSeg
  | [] => []
  | .brk :: rest => .brk :: segmentsLengthLimitGo total_max total_len rest
  | .text t :: rest =>
    if total_len + (t.length : Int) > total_max then []
    else .text t :: segmentsLengthLimitGo total_max (total_len + (t.length : Int)) rest

/-- `segments_length_limit(segments, total_max)` from webui_utils.py. -/
def segments_length_limit (segments : List SSMLSeg) (total_max : Int) : List SSMLSeg :=
  segmentsLengthLimitGo total_max 0 segments

/-- Spec-side reformulation of the length limit, written from the claim's
words: every Break before the cutoff is emitted; the first Text segment
whose text would push the cumulative Text length over the (remaining)
budget is dropped together with everything after it. -/
def segmentsLengthLimitSpec (budget : Int) : List SSMLSeg → List SSMLSeg
  | [] => []
  | .brk :: rest => .brk :: segmentsLengthLimitSpec budget rest
  | .text t :: rest =>
    if (t.length : Int) > budget then []
    else .text t :: segmentsLengthLimitSpec (budget - t.length) rest

/-- `l₁` is an initial segment of `l₂` (the claim's "prefix-ordered
subsequence"). -/
def IsInitialSegment (l₁ l₂ : List SSMLSeg) : Prop := ∃ tail, l₁ ++ tail = l₂

/-! ## Stream encoders (encoders.py) -/

/-- The triple handed to `StreamEncoder.open(format, acodec, bitrate)`. -/
structure EncoderSession where
  format : String
  acodec : String
  bitrate : String
deriving DecidableEq

/-- `StreamEncoder.open`: records the resolved format/codec/bitrate of the
encoding session (process spawning is external). -/
def streamEncoder_open (format acodec bitrate : String) : EncoderSession :=
  ⟨format, acodec, bitrate⟩

/-- `Mp3Encoder.open`: `acodec = acodec or "libmp3lame"`. -/
def mp3Encoder_open (acodec bitrate : String) : EncoderSession :=
  streamEncoder_open "mp3" (pyOrStr acodec "libmp3lame") bitrate

/-- `WavEncoder.open`: `acodec = acodec or "pcm_s16le"`. -/
def wavEncoder_open (acodec bitrate : String) : EncoderSession :=
  streamEncoder_open "wav" (pyOrStr acodec "pcm_s16le") bitrate

/-- `OggEncoder.open`: `acodec = acodec or "libvorbis"`. -/
def oggEncoder_open (acodec bitrate : String) : EncoderSession :=
  streamEncoder_open "ogg" (pyOrStr acodec "libvorbis") bitrate

/-- `FlacEncoder.open`: `acodec = acodec or "flac"`. -/
def flacEncoder_open (acodec bitrate : String) : EncoderSession :=
  streamEncoder_open "flac" (pyOrStr acodec "flac") bitrate

/-- `AacEncoder.open`: the source reads `acodec = acodec or "acc"` — note
the fallback string is literally `"acc"` in encoders.py line 35. -/
def aacEncoder_open (acodec bitrate : String) : EncoderSession :=
  streamEncoder_open "aac" (pyOrStr acodec "acc") bitrate

/-! ## Speakers -/

/-- A gradio reference-audio tuple `(sample_rate, waveform)`. -/
structure RefAudio where
  sampleRate : Int
  samples : List Int
deriving DecidableEq

/-- Encoded wav bytes, kept abstract: only their provenance matters. -/
inductive WavBytes where
  | encoded (audio : RefAudio)
deriving DecidableEq

/-- Modelled from the spec: `encode_to_wav` (modules/webui/speaker/wav_misc.py,
not under src/) encodes the reference audio tuple to wav bytes; modelled as a
free injection since only the identity of the bytes is observable here. -/
def encode_to_wav (audio_tuple : RefAudio) : WavBytes := .encoded audio_tuple

/-- How a speaker was obtained; mirrors the three creation paths that
`tts_generate` can take. -/
inductive SpkOrigin where
  | seeded (seed : Int)
  | fromFile (file : String)
  | refWav (ref_wav : WavBytes) (text : String)
deriving DecidableEq

/-- A resolved `TTSSpeaker` with the fields the webui reads. -/
structure TTSSpk where
  name : String
  gender : String
  desc : String
  origin : SpkOrigin
deriving DecidableEq

/-- Modelled from the spec: `ChatTTSModel.create_speaker_from_seed` (not under
src/) deterministically derives a synthetic speaker from an integer seed. -/
def create_speaker_from_seed (seed : Int) : TTSSpk := ⟨"", "", "", .seeded seed⟩

/-- Modelled from the spec: `TTSSpeaker.from_ref_wav_bytes` (not under src/)
builds a speaker keyed by the encoded audio bytes and the transcript. -/
def TTSSpeaker_from_ref_wav_bytes (ref_wav : WavBytes) (text : String) : TTSSpk :=
  ⟨"", "", "", .refWav ref_wav text⟩

/-! ## Style parameters and coalescing (webui_utils.py lines 230-246) -/

/-- The fields `tts_generate` reads from the dict returned by
`calc_spk_style` (modules/api/utils.py, external): a missing key is `none`. -/
structure StyleParams where
  spk : Option TTSSpk
  seed : Option ℚ
  temperature : Option ℚ
  pfx : Option String
  prompt : Option String
  prompt1 : Option String
  prompt2 : Option String

/-- Line 233: `infer_seed = infer_seed or params.get("seed", infer_seed)`. -/
def ttsCoalescedSeed (infer_seed : ℚ) (params : StyleParams) : ℚ :=
  pyOrQ infer_seed (params.seed.getD infer_seed)

/-- Line 234: `temperature = temperature or params.get("temperature", temperature)`. -/
def ttsCoalescedTemperature (temperature : ℚ) (params : StyleParams) : ℚ :=
  pyOrQ temperature (params.temperature.getD temperature)

/-- Line 235: `prefix = prefix or params.get("prefix", "")`. -/
def ttsCoalescedPfx (pfx : String) (params : StyleParams) : String :=
  pyOrStr pfx (params.pfx.getD "")

/-- Line 237: `prompt1 = prompt1 or params.get("prompt1", "")`. -/
def ttsCoalescedPrompt1 (prompt1 : String) (params : StyleParams) : String :=
  pyOrStr prompt1 (params.prompt1.getD "")

/-- Line 238: `prompt2 = prompt2 or params.get("prompt2", "")`. -/
def ttsCoalescedPrompt2 (prompt2 : String) (params : StyleParams) : String :=
  pyOrStr prompt2 (params.prompt2.getD "")

/-- Line 240: `np.clip(infer_seed, -1, 2**32 - 1, dtype=np.float64)`.  Both
bounds and every in-range integer are exactly representable in float64, so
the clip is exact on ℚ. -/
def npClipSeed (x : ℚ) : ℚ := max (-1) (min x (2^32 - 1))

/-- Python `int(...)` on a number: truncation toward zero. -/
def pyInt (q : ℚ) : Int := if q < 0 then ⌈q⌉ else ⌊q⌋

/-- Lines 240-241: clamp the coalesced seed and coerce it to an integer. -/
def resolveSeed (x : ℚ) : Int := pyInt (npClipSeed x)

/-- The float literal `0.1` of line 245, exact as a rational. -/
def pointOne : ℚ := mkRat 1 10

/-- Line 244: `min_n = 0.000000001`, exact as a rational. -/
def min_n : ℚ := mkRat 1 1000000000

/-- Lines 244-246: `if temperature == 0.1: temperature = min_n`, applied to
the coalesced temperature. -/
def ttsEffectiveTemperature (temperature : ℚ) (params : StyleParams) : ℚ :=
  if ttsCoalescedTemperature temperature params = pointOne then min_n
  else ttsCoalescedTemperature temperature params

/-! ## Config records (datacls, fields as read by webui_utils.py) -/

structure TTSConfigRec where
  mid : String
  style : String
  temperature : ℚ
  top_k : Int
  top_p : ℚ
  prompt : String
  pfx : String
  prompt1 : String
  prompt2 : String
deriving DecidableEq

structure InferConfigRec where
  batch_size : Int
  spliter_threshold : Int
  eos : String
  seed : Int
  sync_gen : Bool
deriving DecidableEq

structure AdjustConfigRec where
  pitch : ℚ
  speed_rate : ℚ
  volume_gain_db : ℚ
  normalize : Bool
  headroom : ℚ
deriving DecidableEq

structure EnhancerConfigRec where
  enabled : Bool
  lambd : ℚ
deriving DecidableEq

structure EncoderConfigRec where
  format : String
  bitrate : String
deriving DecidableEq

/-- Lines 292-295: the `EnhancerConfig` built inside `tts_generate`:
`enabled=enable_denoise or enable_enhance or False,
lambd=0.9 if enable_denoise else 0.1`. -/
def ttsGenerateEnhancerConfig (enable_denoise enable_enhance : Bool) : EnhancerConfigRec :=
  ⟨(enable_denoise || enable_enhance) || false,
   if enable_denoise then mkRat 9 10 else mkRat 1 10⟩

/-- Lines 155-158: the identical `EnhancerConfig` built inside
`synthesize_ssml`. -/
def synthesizeSsmlEnhancerConfig (enable_denoise enable_enhance : Bool) : EnhancerConfigRec :=
  ⟨(enable_denoise || enable_enhance) || false,
   if enable_denoise then mkRat 9 10 else mkRat 1 10⟩

/-! ## `tts_generate` (webui_utils.py lines 184-322) -/

/-- The caller-supplied arguments of `tts_generate` that the modelled part
reads (`batch_size` after the `int(...)` coercion, `top_k` after the
float-to-int coercion of line 227-228). -/
structure TtsArgs where
  text : String
  temperature : ℚ
  top_p : ℚ
  top_k : Int
  spk : Int
  infer_seed : ℚ
  prompt1 : String
  prompt2 : String
  pfx : String
  style : String
  batch_size : Int
  enable_enhance : Bool
  enable_denoise : Bool
  spk_file : Option String
  spliter_thr : Int
  eos : String
  pitch : ℚ
  speed_rate : ℚ
  volume_gain_db : ℚ
  normalize : Bool
  headroom : ℚ
  ref_audio : Option RefAudio
  ref_audio_text : Option String
  model_id : String

/-- Everything `tts_generate` hands to the `TTSHandler`; the synthesis call
`handler.enqueue()` itself is external. -/
structure TtsRequest where
  text : String
  spk : TTSSpk
  tts_config : TTSConfigRec
  infer_config : InferConfigRec
  adjust_config : AdjustConfigRec
  enhancer_config : EnhancerConfigRec
  encoder_config : EncoderConfigRec
deriving DecidableEq

/-- Lines 218-222: `text = text.strip()[0:max_len]`, then raise when the
result is empty.  `tts_max` is `webui_config.tts_max`. -/
def ttsPrepareText (tts_max : Nat) (text : String) : Except String String :=
  if pyTake (pyStrip text) tts_max = "" then
    Except.error "Text is empty, please input some text"
  else Except.ok (pyTake (pyStrip text) tts_max)

/-- Lines 231 and 248-249: `spk = params.get("spk", spk)`, and an integer
speaker argument is turned into a seed-derived speaker. -/
def ttsSpkInitial (spkArg : Int) (params : StyleParams) : TTSSpk :=
  match params.spk with
  | some s => s
  | none => create_speaker_from_seed spkArg

/-- Lines 251-255: a truthy `spk_file` replaces the speaker; a load failure
raises `gr.Error("Failed to load speaker file")`. -/
def ttsSpkAfterFile (from_file : String → Except String TTSSpk) (spk0 : TTSSpk)
    (spk_file : Option String) : Except String TTSSpk :=
  match spk_file with
  | none => Except.ok spk0
  | some f =>
    if f = "" then Except.ok spk0
    else
      match from_file f with
      | Except.ok s => Except.ok s
      | Except.error _ => Except.error "Failed to load speaker file"

/-- Lines 257-264: a supplied reference audio with a `None` or blank
transcript raises `gr.Error("ref_audio_text is empty")`; otherwise the
speaker is rebuilt from the encoded wav bytes and the transcript. -/
def ttsSpkAfterRef (spk : TTSSpk) (ref_audio : Option RefAudio)
    (ref_audio_text : Option String) : Except String TTSSpk :=
  match ref_audio with
  | none => Except.ok spk
  | some ra =>
    match ref_audio_text with
    | none => Except.error "ref_audio_text is empty"
    | some t =>
      if pyStrip t = "" then Except.error "ref_audio_text is empty"
      else Except.ok (TTSSpeaker_from_ref_wav_bytes (encode_to_wav ra) t)

def ttsResolveSpk (from_file : String → Except String TTSSpk) (spkArg : Int)
    (params : StyleParams) (spk_file : Option String) (ref_audio : Option RefAudio)
    (ref_audio_text : Option String) : Except String TTSSpk :=
  match ttsSpkAfterFile from_file (ttsSpkInitial spkArg params) spk_file with
  | Except.error e => Except.error e
  | Except.ok s => ttsSpkAfterRef s ref_audio ref_audio_text

/-- Lines 224-225 and 266-299: the pure construction of the four config
records from the coalesced parameters (the `style = ""` rewrite of
`"*auto"`, the coalescing of lines 233-238, the seed clamp of lines
240-241, the temperature workaround of lines 244-246). -/
def ttsBuildRequest (text : String) (spk : TTSSpk) (params : StyleParams)
    (a : TtsArgs) : TtsRequest :=
  let style := if a.style = "*auto" then "" else a.style
  ⟨text, spk,
   ⟨a.model_id, style, ttsEffectiveTemperature a.temperature params, a.top_k, a.top_p,
    params.prompt.getD "", ttsCoalescedPfx a.pfx params,
    ttsCoalescedPrompt1 a.prompt1 params, ttsCoalescedPrompt2 a.prompt2 params⟩,
   ⟨a.batch_size, a.spliter_thr, a.eos, resolveSeed (ttsCoalescedSeed a.infer_seed params), true⟩,
   ⟨a.pitch, a.speed_rate, a.volume_gain_db, a.normalize, a.headroom⟩,
   ttsGenerateEnhancerConfig a.enable_denoise a.enable_enhance,
   ⟨"mp3", "64k"⟩⟩

/-- `tts_generate` up to the construction of the `TTSHandler` request:
eager input validation (empty text, speaker-file load, blank reference
transcript) happens before any synthesis request exists; an `Except.error`
is a raised `gr.Error`, and `Except.ok req` means `req` is handed to the
handler for synthesis. -/
def tts_generate (tts_max : Nat) (from_file : String → Except String TTSSpk)
    (params : StyleParams) (a : TtsArgs) : Except String TtsRequest :=
  match ttsPrepareText tts_max a.text with
  | Except.error e => Except.error e
  | Except.ok text =>
    match ttsResolveSpk from_file a.spk params a.spk_file a.ref_audio a.ref_audio_text with
    | Except.error e => Except.error e
    | Except.ok spk => Except.ok (ttsBuildRequest text spk params a)

/-! ## `load_spk_info` (webui_utils.py lines 73-86) -/

/-- `load_spk_info(file)`: total by construction — a `None` file yields the
placeholder `"empty"`, a failing load is degraded to the placeholder
`"load failed"`, a successful load is formatted and stripped. -/
def load_spk_info (from_file : String → Except String TTSSpk)
    (file : Option String) : String :=
  match file with
  | none => "empty"
  | some f =>
    match from_file f with
    | Except.ok spk =>
      pyStrip ("\n- name: " ++ spk.name ++ "\n- gender: " ++ spk.gender
        ++ "\n- describe: " ++ spk.desc ++ "\n    ")
    | Except.error _ => "load failed"

/-! ## `refine_text` prompt directives (webui_utils.py lines 334-356) -/

/-- The token `f"[oral_{oral}]"`. -/
def oralTok (oral : Int) : String := "[oral_" ++ toString oral ++ "]"

/-- The token `f"[speed_{speed}]"`. -/
def speedTok (speed : Int) : String := "[speed_" ++ toString speed ++ "]"

/-- The token `f"[break_{rf_break}]"`. -/
def breakTok (rf_break : Int) : String := "[break_" ++ toString rf_break ++ "]"

/-- The token `f"[laugh_{laugh}]"`. -/
def laughTok (laugh : Int) : String := "[laugh_" ++ toString laugh ++ "]"

/-- The `prompt` list built by `refine_text`: each directive token is
appended, in source order, when its parameter is not the sentinel `-1`. -/
def refine_text_prompt (oral speed rf_break laugh : Int) : List String :=
  let p0 : List String := []
  let p1 := if oral ≠ -1 then p0 ++ [oralTok oral] else p0
  let p2 := if speed ≠ -1 then p1 ++ [speedTok speed] else p1
  let p3 := if rf_break ≠ -1 then p2 ++ [breakTok rf_break] else p2
  if laugh ≠ -1 then p3 ++ [laughTok laugh] else p3

/-! ## Concrete instances used to instantiate the theorems -/

/-- An empty style: `calc_spk_style` returned no overriding keys. -/
def emptyStyleParams : StyleParams := ⟨none, none, none, none, none, none, none⟩

/-- A speaker-file loader that always fails. -/
def failingLoad : String → Except String TTSSpk := fun _ => Except.error "not found"

/-- A concrete `tts_generate` argument record (the defaults of the gradio
form, with the text/speaker-file/reference-audio slots supplied). -/
def sampleArgs (text : String) (spk_file : Option String) (ref_audio : Option RefAudio)
    (ref_audio_text : Option String) : TtsArgs :=
  ⟨text, 2, 1, 20, -1, -1, "", "", "", "", 4, false, false, spk_file, 100,
   "[uv_break]", 0, 1, 0, true, 1, ref_audio, ref_audio_text, "chat-tts"⟩

/-! ## Helper lemmas -/

theorem mkRat_nine_tenths : (mkRat 9 10 : ℚ) = 9/10 := by
  rw [Rat.mkRat_eq_div]; norm_num

theorem mkRat_one_tenth : (mkRat 1 10 : ℚ) = 1/10 := by
  rw [Rat.mkRat_eq_div]; norm_num

theorem mkRat_one_billionth : (mkRat 1 1000000000 : ℚ) = 1/1000000000 := by
  rw [Rat.mkRat_eq_div]; norm_num

theorem pointOne_eq : pointOne = 1/10 := mkRat_one_tenth

theorem min_n_eq : min_n = 1/1000000000 := mkRat_one_billionth

/-! ## C3: per-format default codecs -/

/-- Claim C3 (code-bug evidence): with the codec argument unset (falsy), the
mp3/wav/ogg/flac encoders default to the codecs of the fixed table, but
`AacEncoder.open` resolves the codec to the misspelt `"acc"`, not the
`"aac"` the table (and the method's own parameter default) prescribes. -/
theorem encoder_default_codecs_aac_typo :
    (mp3Encoder_open "" "128k").acodec = "libmp3lame" ∧
    (wavEncoder_open "" "128k").acodec = "pcm_s16le" ∧
    (oggEncoder_open "" "128k").acodec = "libvorbis" ∧
    (flacEncoder_open "" "128k").acodec = "flac" ∧
    (aacEncoder_open "" "128k").acodec = "acc" ∧
    ("acc" : String) ≠ "aac" ∧
    (mp3Encoder_open "" "128k").bitrate = "128k" := by
  refine ⟨rfl, rfl, rfl, rfl, rfl, ?_, rfl⟩
  decide

/-! ## C6: enhancer presets -/

/-- Claim C6: in both `tts_generate` and `synthesize_ssml`, the denoise flag
forces `lambd = 0.9`; enhance-only forces `lambd = 0.1`; with neither flag
the enhancer config is built disabled (`enabled = False`). -/
theorem enhancer_config_presets (d e : Bool) :
    (d = true → (ttsGenerateEnhancerConfig d e).lambd = 9/10 ∧
      (synthesizeSsmlEnhancerConfig d e).lambd = 9/10) ∧
    (d = false → e = true → (ttsGenerateEnhancerConfig d e).lambd = 1/10 ∧
      (synthesizeSsmlEnhancerConfig d e).lambd = 1/10) ∧
    (d = false → e = false → (ttsGenerateEnhancerConfig d e).enabled = false ∧
      (synthesizeSsmlEnhancerConfig d e).enabled = false) := by
  refine ⟨?_, ?_, ?_⟩
  · intro hd
    subst hd
    exact ⟨mkRat_nine_tenths, mkRat_nine_tenths⟩
  · intro hd he
    subst hd; subst he
    exact ⟨mkRat_one_tenth, mkRat_one_tenth⟩
  · intro hd he
    subst hd; subst he
    exact ⟨rfl, rfl⟩

theorem enhancer_config_presets_witness :
    (ttsGenerateEnhancerConfig true false).lambd = 9/10 ∧
    (synthesizeSsmlEnhancerConfig true false).lambd = 9/10 :=
  (enhancer_config_presets true false).1 rfl

/-! ## C1: truthiness-based coalescing -/

/-- Claim C1 counterexample: with an explicit caller seed of `-1` and a
style preset seed of `42`, the coalescing of line 233 keeps `-1` — Python's
`or` treats `-1` as truthy — whereas the claim demands the style value. -/
theorem tts_coalescing_sentinel_counterexample :
    ttsCoalescedSeed (-1) ⟨none, some 42, none, none, none, none, none⟩ = -1 ∧
    ((-1 : ℚ) ≠ 42) := by
  constructor
  · decide
  · decide

/-- Claim C1 (amended): for `infer_seed`, `temperature`, `prefix`,
`prompt1` and `prompt2`, the explicit caller value wins exactly when it is
truthy in the Python sense — non-zero for the numbers, non-empty for the
strings.  The sentinel `-1` is non-zero, hence truthy, and also wins over
the style value; only an explicit `0` or empty string falls back to the
style preset value. -/
theorem tts_generate_truthy_coalescing (p : StyleParams) (cs ct : ℚ) (s1 s2 s3 : String) :
    (cs ≠ 0 → ttsCoalescedSeed cs p = cs) ∧
    (ttsCoalescedSeed 0 p = p.seed.getD 0) ∧
    (ttsCoalescedSeed (-1) p = -1) ∧
    (ct ≠ 0 → ttsCoalescedTemperature ct p = ct) ∧
    (ttsCoalescedTemperature 0 p = p.temperature.getD 0) ∧
    (ttsCoalescedTemperature (-1) p = -1) ∧
    (s1 ≠ "" → ttsCoalescedPfx s1 p = s1) ∧
    (ttsCoalescedPfx "" p = p.pfx.getD "") ∧
    (s2 ≠ "" → ttsCoalescedPrompt1 s2 p = s2) ∧
    (ttsCoalescedPrompt1 "" p = p.prompt1.getD "") ∧
    (s3 ≠ "" → ttsCoalescedPrompt2 s3 p = s3) ∧
    (ttsCoalescedPrompt2 "" p = p.prompt2.getD "") := by
  refine ⟨?_, ?_, ?_, ?_, ?_, ?_, ?_, ?_, ?_, ?_, ?_, ?_⟩ <;>
    first
      | (intro h
         simp [ttsCoalescedSeed, ttsCoalescedTemperature, ttsCoalescedPfx,
           ttsCoalescedPrompt1, ttsCoalescedPrompt2, pyOrQ, pyOrStr, h])
      | simp [ttsCoalescedSeed, ttsCoalescedTemperature, ttsCoalescedPfx,
          ttsCoalescedPrompt1, ttsCoalescedPrompt2, pyOrQ, pyOrStr]

theorem tts_generate_truthy_coalescing_witness :
    ttsCoalescedSeed 5 ⟨none, some 42, none, none, none, none, none⟩ = 5 :=
  (tts_generate_truthy_coalescing ⟨none, some 42, none, none, none, none, none⟩
    5 2 "a" "b" "c").1 (by decide)

/-! ## C5: the temperature 0.1 workaround -/

/-- Claim C5 counterexample: the caller-supplied temperature `0` is not
`0.1`, yet it does not pass through to the `TTSConfig` unchanged — it is
falsy, so the style preset value `1/2` replaces it. -/
theorem tts_temperature_passthrough_counterexample :
    ttsEffectiveTemperature 0 ⟨none, none, some (mkRat 1 2), none, none, none, none⟩
      = mkRat 1 2 ∧
    ((0 : ℚ) ≠ 1/10) ∧ ((mkRat 1 2 : ℚ) ≠ 0) := by
  refine ⟨by decide, by norm_num, by decide⟩

/-- Claim C5 (amended): the `0.1 → 1e-9` replacement applies to the
*effective* (post-coalescing) temperature; every other effective
temperature is placed in the `TTSConfig` unchanged.  (A falsy explicit
caller value is replaced by the style value before this check, so a caller
value other than `0.1` need not itself survive.) -/
theorem tts_generate_temperature_special_case (c : ℚ) (p : StyleParams) :
    (ttsCoalescedTemperature c p = pointOne →
      ttsEffectiveTemperature c p = min_n) ∧
    (ttsCoalescedTemperature c p ≠ pointOne →
      ttsEffectiveTemperature c p = ttsCoalescedTemperature c p) ∧
    pointOne = 1/10 ∧ min_n = 1/1000000000 ∧
    (∀ text spk a, (ttsBuildRequest text spk p a).tts_config.temperature =
      ttsEffectiveTemperature a.temperature p) := by
  refine ⟨?_, ?_, pointOne_eq, min_n_eq, ?_⟩
  · intro h
    unfold ttsEffectiveTemperature
    rw [if_pos h]
  · intro h
    unfold ttsEffectiveTemperature
    rw [if_neg h]
  · intro text spk a
    rfl

theorem tts_generate_temperature_special_case_witness :
    ttsEffectiveTemperature 2 emptyStyleParams = ttsCoalescedTemperature 2 emptyStyleParams :=
  (tts_generate_temperature_special_case 2 emptyStyleParams).2.1 (by decide)

/-! ## C4: the seed clamp -/

theorem npClipSeed_lb (x : ℚ) : -1 ≤ npClipSeed x := le_max_left _ _

theorem npClipSeed_ub (x : ℚ) : npClipSeed x ≤ 2^32 - 1 :=
  max_le (by norm_num) (min_le_right _ _)

theorem pyInt_bounds {q : ℚ} (h1 : -1 ≤ q) (h2 : q ≤ 2^32 - 1) :
    -1 ≤ pyInt q ∧ pyInt q ≤ 2^32 - 1 := by
  have hM : ((2:Int)^32 - 1) = 4294967295 := by norm_num
  unfold pyInt
  split
  case isTrue h =>
    have hlb : (⌈(-1 : ℚ)⌉ : Int) ≤ ⌈q⌉ := Int.ceil_le_ceil h1
    have he : (⌈(-1 : ℚ)⌉ : Int) = -1 := by
      rw [show ((-1 : ℚ)) = (((-1 : Int)) : ℚ) by norm_num, Int.ceil_intCast]
    have hub : (⌈q⌉ : Int) ≤ ⌈(0 : ℚ)⌉ := Int.ceil_le_ceil (le_of_lt h)
    have h0 : (⌈(0 : ℚ)⌉ : Int) = 0 := by
      rw [show ((0 : ℚ)) = (((0 : Int)) : ℚ) by norm_num, Int.ceil_intCast]
    omega
  case isFalse h =>
    push_neg at h
    have hlb : (0 : Int) ≤ ⌊q⌋ := Int.floor_nonneg.mpr h
    have hub : (⌊q⌋ : Int) ≤ ⌊((2:ℚ)^32 - 1)⌋ := Int.floor_le_floor h2
    have hF : (⌊((2:ℚ)^32 - 1)⌋ : Int) = 2^32 - 1 := by
      rw [show ((2:ℚ)^32 - 1) = (((2^32 - 1 : Int)) : ℚ) by norm_num, Int.floor_intCast]
    omega

theorem pyInt_intCast (n : Int) : pyInt ((n : ℚ)) = n := by
  unfold pyInt
  split
  · exact Int.ceil_intCast n
  · exact Int.floor_intCast n

/-- Claim C4: after coalescing, the seed is clamped into `[-1, 2^32 - 1]`
and coerced to an integer: any value lands in the range, values below `-1`
map to `-1`, values above `2^32 - 1` map to `2^32 - 1`, and every in-range
integer maps to itself. -/
theorem tts_generate_seed_clamp (x : ℚ) :
    (-1 ≤ resolveSeed x ∧ resolveSeed x ≤ 2^32 - 1) ∧
    (x < -1 → resolveSeed x = -1) ∧
    ((2^32 - 1 : ℚ) < x → resolveSeed x = 2^32 - 1) ∧
    (∀ n : Int, -1 ≤ n → n ≤ 2^32 - 1 → resolveSeed (n : ℚ) = n) := by
  refine ⟨pyInt_bounds (npClipSeed_lb x) (npClipSeed_ub x), ?_, ?_, ?_⟩
  · intro h
    have hc : npClipSeed x = -1 := by
      unfold npClipSeed
      rw [min_eq_left (le_trans (le_of_lt h) (by norm_num)), max_eq_left (le_of_lt h)]
    unfold resolveSeed
    rw [hc, show ((-1 : ℚ)) = (((-1 : Int)) : ℚ) by norm_num, pyInt_intCast]
  · intro h
    have hc : npClipSeed x = 2^32 - 1 := by
      unfold npClipSeed
      rw [min_eq_right (le_of_lt h), max_eq_right (by norm_num)]
    unfold resolveSeed
    rw [hc, show ((2:ℚ)^32 - 1) = (((2^32 - 1 : Int)) : ℚ) by norm_num, pyInt_intCast]
  · intro n hn1 hn2
    have hc : npClipSeed ((n : ℚ)) = (n : ℚ) := by
      unfold npClipSeed
      rw [min_eq_left (by exact_mod_cast hn2), max_eq_right (by exact_mod_cast hn1)]
    unfold resolveSeed
    rw [hc, pyInt_intCast]

theorem tts_generate_seed_clamp_witness : resolveSeed ((5 : Int) : ℚ) = 5 :=
  (tts_generate_seed_clamp 0).2.2.2 5 (by decide) (by decide)

/-! ## C2: the segment length limit -/

theorem segmentsLengthLimitGo_eq_spec (segs : List SSMLSeg) :
    ∀ total_max total_len : Int,
      segmentsLengthLimitGo total_max total_len segs =
        segmentsLengthLimitSpec (total_max - total_len) segs := by
  induction segs with
  | nil => intro m a; rfl
  | cons s rest ih =>
    intro m a
    cases s with
    | brk =>
      simp only [segmentsLengthLimitGo, segmentsLengthLimitSpec]
      rw [ih]
    | text t =>
      simp only [segmentsLengthLimitGo, segmentsLengthLimitSpec]
      by_cases h : a + (t.length : Int) > m
      · rw [if_pos h, if_pos (by omega)]
      · rw [if_neg h, if_neg (by omega), ih,
          show m - (a + (t.length : Int)) = (m - a) - (t.length : Int) by ring]

theorem segmentsLengthLimitSpec_initial (budget : Int) (segs : List SSMLSeg) :
    IsInitialSegment (segmentsLengthLimitSpec budget segs) segs := by
  induction segs generalizing budget with
  | nil => exact ⟨[], rfl⟩
  | cons s rest ih =>
    cases s with
    | brk =>
      obtain ⟨tail, ht⟩ := ih budget
      exact ⟨tail, by simp only [segmentsLengthLimitSpec, List.cons_append, ht]⟩
    | text t =>
      by_cases h : (t.length : Int) > budget
      · exact ⟨SSMLSeg.text t :: rest, by simp [segmentsLengthLimitSpec, h]⟩
      · obtain ⟨tail, ht⟩ := ih (budget - t.length)
        exact ⟨tail, by simp only [segmentsLengthLimitSpec, if_neg h, List.cons_append, ht]⟩

theorem segmentsLengthLimitSpec_budget (segs : List SSMLSeg) :
    ∀ budget : Int, 0 ≤ budget →
      (totalTextLen (segmentsLengthLimitSpec budget segs) : Int) ≤ budget := by
  induction segs with
  | nil =>
    intro m hm
    simpa [segmentsLengthLimitSpec, totalTextLen] using hm
  | cons s rest ih =>
    intro m hm
    cases s with
    | brk =>
      have := ih m hm
      simpa [segmentsLengthLimitSpec, totalTextLen, segTextLen] using this
    | text t =>
      by_cases h : (t.length : Int) > m
      · simpa [segmentsLengthLimitSpec, h, totalTextLen] using hm
      · push_neg at h
        have hrec := ih (m - t.length) (by omega)
        simp only [segmentsLengthLimitSpec, if_neg (not_lt.mpr h), totalTextLen,
          List.map_cons, List.sum_cons, segTextLen] at hrec ⊢
        push_cast
        push_cast at hrec
        omega

/-- Claim C2 counterexample: with the negative budget `-1` and the single
segment `[Break]`, the Break is still emitted, so the emitted Text length
`0` exceeds the budget — the claim's "total ≤ budget for every budget"
fails. -/
theorem segments_length_limit_negative_budget_counterexample :
    segments_length_limit [SSMLSeg.brk] (-1) = [SSMLSeg.brk] ∧
    ¬ ((totalTextLen (segments_length_limit [SSMLSeg.brk] (-1)) : Int) ≤ -1) := by
  constructor
  · rfl
  · decide

/-- Claim C2 (amended): `segments_length_limit` emits exactly the segments
before the first Text segment that would push the cumulative Text length
over the budget (Breaks before the cutoff included; the over-budget Text
segment and everything after it dropped) — this is the equality with the
spec-side `segmentsLengthLimitSpec`; the result is a prefix of the input;
and whenever the budget is non-negative the emitted Text length is at most
the budget. -/
theorem segments_length_limit_correct (segs : List SSMLSeg) (total_max : Int) :
    segments_length_limit segs total_max = segmentsLengthLimitSpec total_max segs ∧
    IsInitialSegment (segments_length_limit segs total_max) segs ∧
    (0 ≤ total_max →
      (totalTextLen (segments_length_limit segs total_max) : Int) ≤ total_max) := by
  have he : segments_length_limit segs total_max = segmentsLengthLimitSpec total_max segs := by
    have h0 := segmentsLengthLimitGo_eq_spec segs total_max 0
    simpa [segments_length_limit] using h0
  refine ⟨he, ?_, ?_⟩
  · rw [he]
    exact segmentsLengthLimitSpec_initial total_max segs
  · intro h
    rw [he]
    exact segmentsLengthLimitSpec_budget segs total_max h

theorem segments_length_limit_correct_witness :
    (totalTextLen (segments_length_limit [SSMLSeg.text "ab", SSMLSeg.brk] 5) : Int) ≤ 5 :=
  (segments_length_limit_correct [SSMLSeg.text "ab", SSMLSeg.brk] 5).2.2 (by decide)

/-! ## C8: refine_text prompt directives -/

theorem oralTok_ne_speedTok (a b : Int) : oralTok a ≠ speedTok b := by
  intro h
  have h2 : (oralTok a).get ⟨1⟩ = (speedTok b).get ⟨1⟩ := congrArg (fun s => s.get ⟨1⟩) h
  have h3 : (oralTok a).get ⟨1⟩ = 'o' := rfl
  have h4 : (speedTok b).get ⟨1⟩ = 's' := rfl
  rw [h3, h4] at h2
  exact absurd h2 (by decide)

theorem oralTok_ne_breakTok (a b : Int) : oralTok a ≠ breakTok b := by
  intro h
  have h2 : (oralTok a).get ⟨1⟩ = (breakTok b).get ⟨1⟩ := congrArg (fun s => s.get ⟨1⟩) h
  have h3 : (oralTok a).get ⟨1⟩ = 'o' := rfl
  have h4 : (breakTok b).get ⟨1⟩ = 'b' := rfl
  rw [h3, h4] at h2
  exact absurd h2 (by decide)

theorem oralTok_ne_laughTok (a b : Int) : oralTok a ≠ laughTok b := by
  intro h
  have h2 : (oralTok a).get ⟨1⟩ = (laughTok b).get ⟨1⟩ := congrArg (fun s => s.get ⟨1⟩) h
  have h3 : (oralTok a).get ⟨1⟩ = 'o' := rfl
  have h4 : (laughTok b).get ⟨1⟩ = 'l' := rfl
  rw [h3, h4] at h2
  exact absurd h2 (by decide)

theorem speedTok_ne_breakTok (a b : Int) : speedTok a ≠ breakTok b := by
  intro h
  have h2 : (speedTok a).get ⟨1⟩ = (breakTok b).get ⟨1⟩ := congrArg (fun s => s.get ⟨1⟩) h
  have h3 : (speedTok a).get ⟨1⟩ = 's' := rfl
  have h4 : (breakTok b).get ⟨1⟩ = 'b' := rfl
  rw [h3, h4] at h2
  exact absurd h2 (by decide)

theorem speedTok_ne_laughTok (a b : Int) : speedTok a ≠ laughTok b := by
  intro h
  have h2 : (speedTok a).get ⟨1⟩ = (laughTok b).get ⟨1⟩ := congrArg (fun s => s.get ⟨1⟩) h
  have h3 : (speedTok a).get ⟨1⟩ = 's' := rfl
  have h4 : (laughTok b).get ⟨1⟩ = 'l' := rfl
  rw [h3, h4] at h2
  exact absurd h2 (by decide)

theorem breakTok_ne_laughTok (a b : Int) : breakTok a ≠ laughTok b := by
  intro h
  have h2 : (breakTok a).get ⟨1⟩ = (laughTok b).get ⟨1⟩ := congrArg (fun s => s.get ⟨1⟩) h
  have h3 : (breakTok a).get ⟨1⟩ = 'b' := rfl
  have h4 : (laughTok b).get ⟨1⟩ = 'l' := rfl
  rw [h3, h4] at h2
  exact absurd h2 (by decide)

theorem speedTok_ne_oralTok (a b : Int) : speedTok a ≠ oralTok b :=
  (oralTok_ne_speedTok b a).symm

theorem breakTok_ne_oralTok (a b : Int) : breakTok a ≠ oralTok b :=
  (oralTok_ne_breakTok b a).symm

theorem laughTok_ne_oralTok (a b : Int) : laughTok a ≠ oralTok b :=
  (oralTok_ne_laughTok b a).symm

theorem breakTok_ne_speedTok (a b : Int) : breakTok a ≠ speedTok b :=
  (speedTok_ne_breakTok b a).symm

theorem laughTok_ne_speedTok (a b : Int) : laughTok a ≠ speedTok b :=
  (speedTok_ne_laughTok b a).symm

theorem laughTok_ne_breakTok (a b : Int) : laughTok a ≠ breakTok b :=
  (breakTok_ne_laughTok b a).symm

theorem refine_text_prompt_eq_append (o s b l : Int) :
    refine_text_prompt o s b l =
      (if o ≠ -1 then [oralTok o] else []) ++ (if s ≠ -1 then [speedTok s] else []) ++
      (if b ≠ -1 then [breakTok b] else []) ++ (if l ≠ -1 then [laughTok l] else []) := by
  unfold refine_text_prompt
  split_ifs <;> simp

theorem ite_singleton_sublist (c : Prop) [Decidable c] (a : String) :
    List.Sublist (if c then [a] else []) [a] := by
  split
  · exact List.Sublist.refl _
  · exact List.nil_sublist _

/-- Claim C8: the `refine_text` prompt contains the oral/speed/break/laugh
directive token exactly when the corresponding parameter is not the
sentinel `-1`, and the included tokens appear in the fixed source order
oral, speed, break, laugh. -/
theorem refine_text_directives (o s b l : Int) :
    (oralTok o ∈ refine_text_prompt o s b l ↔ o ≠ -1) ∧
    (speedTok s ∈ refine_text_prompt o s b l ↔ s ≠ -1) ∧
    (breakTok b ∈ refine_text_prompt o s b l ↔ b ≠ -1) ∧
    (laughTok l ∈ refine_text_prompt o s b l ↔ l ≠ -1) ∧
    List.Sublist (refine_text_prompt o s b l)
      [oralTok o, speedTok s, breakTok b, laughTok l] := by
  rw [refine_text_prompt_eq_append]
  refine ⟨?_, ?_, ?_, ?_, ?_⟩
  · split_ifs <;>
      simp_all [oralTok_ne_speedTok, oralTok_ne_breakTok, oralTok_ne_laughTok]
  · split_ifs <;>
      simp_all [speedTok_ne_oralTok, speedTok_ne_breakTok, speedTok_ne_laughTok]
  · split_ifs <;>
      simp_all [breakTok_ne_oralTok, breakTok_ne_speedTok, breakTok_ne_laughTok]
  · split_ifs <;>
      simp_all [laughTok_ne_oralTok, laughTok_ne_speedTok, laughTok_ne_breakTok]
  · have hshape : [oralTok o, speedTok s, breakTok b, laughTok l] =
        [oralTok o] ++ [speedTok s] ++ [breakTok b] ++ [laughTok l] := rfl
    rw [hshape]
    exact List.Sublist.append
      (List.Sublist.append
        (List.Sublist.append (ite_singleton_sublist _ _) (ite_singleton_sublist _ _))
        (ite_singleton_sublist _ _))
      (ite_singleton_sublist _ _)

theorem refine_text_directives_witness :
    (oralTok 3 ∈ refine_text_prompt 3 (-1) 2 (-1) ↔ (3 : Int) ≠ -1) ∧
    (speedTok (-1) ∈ refine_text_prompt 3 (-1) 2 (-1) ↔ (-1 : Int) ≠ -1) ∧
    (breakTok 2 ∈ refine_text_prompt 3 (-1) 2 (-1) ↔ (2 : Int) ≠ -1) ∧
    (laughTok (-1) ∈ refine_text_prompt 3 (-1) 2 (-1) ↔ (-1 : Int) ≠ -1) ∧
    List.Sublist (refine_text_prompt 3 (-1) 2 (-1))
      [oralTok 3, speedTok (-1), breakTok 2, laughTok (-1)] :=
  refine_text_directives 3 (-1) 2 (-1)

/-! ## Pipeline lemmas for C7, C9, C10 -/

theorem pyTake_empty (n : Nat) : pyTake "" n = "" := String.ext (by simp [pyTake])

theorem pyTake_eq_empty_iff (s : String) {n : Nat} (h : 1 ≤ n) :
    pyTake s n = "" ↔ s = "" := by
  constructor
  · intro he
    have hd : s.data.take n = [] := congrArg String.data he
    rw [List.take_eq_nil_iff] at hd
    rcases hd with h1 | h1
    · omega
    · exact String.ext h1
  · intro he
    subst he
    exact pyTake_empty n

theorem ttsPrepareText_ok (tts_max : Nat) (text : String) (hmax : 1 ≤ tts_max)
    (hne : pyStrip text ≠ "") :
    ttsPrepareText tts_max text = Except.ok (pyTake (pyStrip text) tts_max) := by
  unfold ttsPrepareText
  rw [if_neg (fun hc => hne ((pyTake_eq_empty_iff (pyStrip text) hmax).mp hc))]

theorem ttsPrepareText_empty (tts_max : Nat) (text : String) (he : pyStrip text = "") :
    ttsPrepareText tts_max text = Except.error "Text is empty, please input some text" := by
  have h0 : pyTake (pyStrip text) tts_max = "" := by
    rw [he]
    exact pyTake_empty tts_max
  unfold ttsPrepareText
  rw [if_pos h0]

theorem ttsSpkAfterFile_error (from_file : String → Except String TTSSpk) (spk0 : TTSSpk)
    (spk_file : Option String) (e : String)
    (h : ttsSpkAfterFile from_file spk0 spk_file = Except.error e) :
    e = "Failed to load speaker file" := by
  cases spk_file with
  | none => simp [ttsSpkAfterFile] at h
  | some f =>
    by_cases hf : f = ""
    · simp [ttsSpkAfterFile, hf] at h
    · simp only [ttsSpkAfterFile] at h
      rw [if_neg hf] at h
      cases hff : from_file f with
      | ok s =>
        rw [hff] at h
        simp at h
      | error e2 =>
        rw [hff] at h
        simp at h
        exact h.symm

theorem ttsSpkAfterRef_error (spk : TTSSpk) (ref_audio : Option RefAudio)
    (ref_audio_text : Option String) (e : String)
    (h : ttsSpkAfterRef spk ref_audio ref_audio_text = Except.error e) :
    e = "ref_audio_text is empty" := by
  cases ref_audio with
  | none => simp [ttsSpkAfterRef] at h
  | some ra =>
    cases ref_audio_text with
    | none =>
      simp [ttsSpkAfterRef] at h
      exact h.symm
    | some t =>
      by_cases hs : pyStrip t = ""
      · simp [ttsSpkAfterRef, hs] at h
        exact h.symm
      · simp [ttsSpkAfterRef, hs] at h

theorem ttsSpkAfterRef_blank (spk : TTSSpk) (ra : RefAudio) (rt : Option String)
    (hblank : rt = none ∨ ∃ t, rt = some t ∧ pyStrip t = "") :
    ttsSpkAfterRef spk (some ra) rt = Except.error "ref_audio_text is empty" := by
  rcases hblank with h | ⟨t, ht, hs⟩
  · subst h
    rfl
  · subst ht
    simp [ttsSpkAfterRef, hs]

theorem ttsSpkAfterRef_nonblank (spk : TTSSpk) (ra : RefAudio) (t : String)
    (hnb : pyStrip t ≠ "") :
    ttsSpkAfterRef spk (some ra) (some t) =
      Except.ok (TTSSpeaker_from_ref_wav_bytes (encode_to_wav ra) t) := by
  simp [ttsSpkAfterRef, hnb]

theorem ttsResolveSpk_error_msgs (from_file : String → Except String TTSSpk)
    (spkArg : Int) (params : StyleParams) (spk_file : Option String)
    (ref_audio : Option RefAudio) (ref_audio_text : Option String) (e : String)
    (h : ttsResolveSpk from_file spkArg params spk_file ref_audio ref_audio_text =
      Except.error e) :
    e = "Failed to load speaker file" ∨ e = "ref_audio_text is empty" := by
  unfold ttsResolveSpk at h
  cases haf : ttsSpkAfterFile from_file (ttsSpkInitial spkArg params) spk_file with
  | error e2 =>
    rw [haf] at h
    injection h with h2
    left
    rw [← h2]
    exact ttsSpkAfterFile_error from_file (ttsSpkInitial spkArg params) spk_file e2 haf
  | ok s =>
    rw [haf] at h
    right
    exact ttsSpkAfterRef_error s ref_audio ref_audio_text e h

/-! ## C7: reference-audio speaker -/

/-- Claim C7: when a reference audio is supplied, a `None` or blank (after
stripping) transcript makes `tts_generate` fail before any synthesis
request is built — specifically with `gr.Error("ref_audio_text is empty")`
once the earlier validations pass — while a non-blank transcript makes the
handed-over speaker the one built from the encoded audio bytes and the
transcript. -/
theorem tts_generate_ref_audio_speaker (tts_max : Nat)
    (from_file : String → Except String TTSSpk) (params : StyleParams)
    (a : TtsArgs) (ra : RefAudio) (hra : a.ref_audio = some ra) :
    ((a.ref_audio_text = none ∨ ∃ t, a.ref_audio_text = some t ∧ pyStrip t = "") →
      ∃ e, tts_generate tts_max from_file params a = Except.error e) ∧
    (∀ t req, a.ref_audio_text = some t → pyStrip t ≠ "" →
      tts_generate tts_max from_file params a = Except.ok req →
      req.spk = TTSSpeaker_from_ref_wav_bytes (encode_to_wav ra) t) ∧
    (a.spk_file = none → pyStrip a.text ≠ "" → 1 ≤ tts_max →
      (a.ref_audio_text = none ∨ ∃ t, a.ref_audio_text = some t ∧ pyStrip t = "") →
      tts_generate tts_max from_file params a = Except.error "ref_audio_text is empty") := by
  refine ⟨?_, ?_, ?_⟩
  · intro hblank
    unfold tts_generate
    cases hp : ttsPrepareText tts_max a.text with
    | error e => exact ⟨e, rfl⟩
    | ok text =>
      unfold ttsResolveSpk
      cases haf : ttsSpkAfterFile from_file (ttsSpkInitial a.spk params) a.spk_file with
      | error e => exact ⟨e, rfl⟩
      | ok s =>
        have hb : ∀ spk0 : TTSSpk, ttsSpkAfterRef spk0 (some ra) a.ref_audio_text =
            Except.error "ref_audio_text is empty" :=
          fun spk0 => ttsSpkAfterRef_blank spk0 ra a.ref_audio_text hblank
        refine ⟨"ref_audio_text is empty", ?_⟩
        rw [hra]
        simp [hb]
  · intro t req hrt hnb hok
    unfold tts_generate at hok
    cases hp : ttsPrepareText tts_max a.text with
    | error e =>
      rw [hp] at hok
      simp at hok
    | ok text =>
      rw [hp] at hok
      unfold ttsResolveSpk at hok
      cases haf : ttsSpkAfterFile from_file (ttsSpkInitial a.spk params) a.spk_file with
      | error e =>
        rw [haf] at hok
        simp at hok
      | ok s =>
        rw [haf] at hok
        have hcall : ∀ spk0 : TTSSpk, ttsSpkAfterRef spk0 (some ra) (some t) =
            Except.ok (TTSSpeaker_from_ref_wav_bytes (encode_to_wav ra) t) :=
          fun spk0 => ttsSpkAfterRef_nonblank spk0 ra t hnb
        simp [hra, hrt, hcall] at hok
        rw [← hok]
        rfl
  · intro hsf hne hmax hblank
    unfold tts_generate
    rw [ttsPrepareText_ok tts_max a.text hmax hne]
    unfold ttsResolveSpk
    have haf : ttsSpkAfterFile from_file (ttsSpkInitial a.spk params) a.spk_file =
        Except.ok (ttsSpkInitial a.spk params) := by
      rw [hsf]
      rfl
    have hb : ∀ spk0 : TTSSpk, ttsSpkAfterRef spk0 (some ra) a.ref_audio_text =
        Except.error "ref_audio_text is empty" :=
      fun spk0 => ttsSpkAfterRef_blank spk0 ra a.ref_audio_text hblank
    rw [haf, hra]
    simp [hb]

theorem tts_generate_ref_audio_speaker_witness :
    tts_generate 10 failingLoad emptyStyleParams
        (sampleArgs "hello" none (some ⟨44100, [0]⟩) (some " ")) =
      Except.error "ref_audio_text is empty" :=
  (tts_generate_ref_audio_speaker 10 failingLoad emptyStyleParams
      (sampleArgs "hello" none (some ⟨44100, [0]⟩) (some " ")) ⟨44100, [0]⟩ rfl).2.2
    rfl (by decide) (by decide) (Or.inr ⟨" ", rfl, by decide⟩)

/-! ## C9: read-only inspection degrades, synthesis path is fatal -/

/-- Claim C9: `load_spk_info` never raises (it is total by type): a `None`
file yields `"empty"` and a failing load yields `"load failed"`; whereas in
`tts_generate` the same speaker-file load failure raises
`gr.Error("Failed to load speaker file")` and the request terminates with
no request handed to synthesis. -/
theorem load_spk_info_degrades_tts_generate_fatal
    (from_file : String → Except String TTSSpk) :
    (load_spk_info from_file none = "empty") ∧
    (∀ f e, from_file f = Except.error e → load_spk_info from_file (some f) = "load failed") ∧
    (∀ (tts_max : Nat) (params : StyleParams) (a : TtsArgs) (f e : String),
      1 ≤ tts_max → pyStrip a.text ≠ "" → a.spk_file = some f → f ≠ "" →
      from_file f = Except.error e →
      tts_generate tts_max from_file params a =
        Except.error "Failed to load speaker file") := by
  refine ⟨rfl, ?_, ?_⟩
  · intro f e hf
    simp [load_spk_info, hf]
  · intro tts_max params a f e hmax hne hsf hf hload
    unfold tts_generate
    rw [ttsPrepareText_ok tts_max a.text hmax hne]
    unfold ttsResolveSpk
    have haf : ttsSpkAfterFile from_file (ttsSpkInitial a.spk params) a.spk_file =
        Except.error "Failed to load speaker file" := by
      rw [hsf]
      simp only [ttsSpkAfterFile]
      rw [if_neg hf, hload]
    rw [haf]

theorem load_spk_info_degrades_witness :
    load_spk_info failingLoad none = "empty" ∧
    load_spk_info failingLoad (some "spk.json") = "load failed" ∧
    tts_generate 10 failingLoad emptyStyleParams
        (sampleArgs "hello" (some "spk.json") none none) =
      Except.error "Failed to load speaker file" :=
  ⟨(load_spk_info_degrades_tts_generate_fatal failingLoad).1,
   (load_spk_info_degrades_tts_generate_fatal failingLoad).2.1 "spk.json" "not found" rfl,
   (load_spk_info_degrades_tts_generate_fatal failingLoad).2.2 10 emptyStyleParams
     (sampleArgs "hello" (some "spk.json") none none) "spk.json" "not found"
     (by decide) (by decide) rfl (by decide) rfl⟩

/-! ## C10: silent truncation -/

/-- Claim C10: `tts_generate` silently truncates over-long input — any text
handed to the synthesis handler is `text.strip()[0:tts_max]` — and the
empty-text error is raised exactly when the stripped text is empty
(assuming the configured `tts_max` is at least 1). -/
theorem tts_generate_truncation (tts_max : Nat)
    (from_file : String → Except String TTSSpk) (params : StyleParams) (a : TtsArgs)
    (hmax : 1 ≤ tts_max) :
    (∀ req, tts_generate tts_max from_file params a = Except.ok req →
      req.text = pyTake (pyStrip a.text) tts_max) ∧
    (tts_generate tts_max from_file params a =
        Except.error "Text is empty, please input some text" ↔ pyStrip a.text = "") := by
  by_cases hemp : pyStrip a.text = ""
  · have herr := ttsPrepareText_empty tts_max a.text hemp
    constructor
    · intro req hok
      unfold tts_generate at hok
      rw [herr] at hok
      simp at hok
    · constructor
      · intro _
        exact hemp
      · intro _
        unfold tts_generate
        rw [herr]
  · have hok := ttsPrepareText_ok tts_max a.text hmax hemp
    constructor
    · intro req hreq
      unfold tts_generate at hreq
      rw [hok] at hreq
      cases hr : ttsResolveSpk from_file a.spk params a.spk_file a.ref_audio
          a.ref_audio_text with
      | error e =>
        rw [hr] at hreq
        simp at hreq
      | ok spk =>
        rw [hr] at hreq
        simp at hreq
        rw [← hreq]
        rfl
    · constructor
      · intro hcontra
        unfold tts_generate at hcontra
        rw [hok] at hcontra
        cases hr : ttsResolveSpk from_file a.spk params a.spk_file a.ref_audio
            a.ref_audio_text with
        | error e =>
          rw [hr] at hcontra
          simp at hcontra
          rcases ttsResolveSpk_error_msgs from_file a.spk params a.spk_file a.ref_audio
              a.ref_audio_text e hr with h3 | h3 <;>
            (rw [h3] at hcontra; exact absurd hcontra (by decide))
        | ok spk =>
          rw [hr] at hcontra
          simp at hcontra
      · intro hc
        exact absurd hc hemp

theorem tts_generate_truncation_witness :
    tts_generate 10 failingLoad emptyStyleParams (sampleArgs " " none none none) =
        Except.error "Text is empty, please input some text" ↔
      pyStrip (sampleArgs " " none none none).text = "" :=
  (tts_generate_truncation 10 failingLoad emptyStyleParams
    (sampleArgs " " none none none) (by decide)).2

end ChatTTSForge
